import Mathlib

/-!
Verification of the linux platform command of fyne-cross
(`internal/command/linux.go`) against its design specification.

The Go source is shallowly embedded below.  Pure values and the control
flow of `Build`, `setupContainerImages` and the architecture resolution
are transcribed directly from the source.  Collaborators that live
outside the file under analysis (the container engine, `prepareIcon`,
`fynePackage` / `fyneRelease`, the outcome of `image.Run`, flag parsing,
`makeDefaultContext`) are represented by oracle parameters: their result
is an input to the embedded function, and the embedded function uses it
exactly the way the Go code uses the collaborator's return value.
Definitions whose code is not part of the analysed file are modelled
from the specification and say so in their doc comment.
-/

set_option autoImplicit false

namespace FyneCross

/-- Target CPU architecture.  The four constants used by the linux
command are `ArchAmd64`, `Arch386`, `ArchArm`, `ArchArm64`; the
constructor `i386` renders as the Go string `"386"`. -/
inductive Architecture where
  | amd64
  | i386
  | arm
  | arm64
deriving DecidableEq

/-- Modelled from the spec: the string value of each `Architecture`
constant, as shown in the supported-set listing `{amd64, 386, arm, arm64}`
and in the `-arch` flag tokens. -/
def archString : Architecture → String
  | .amd64 => "amd64"
  | .i386 => "386"
  | .arm => "arm"
  | .arm64 => "arm64"

/-- `linuxOS` is the linux OS name (source line 13). -/
def linuxOS : String := "linux"

/-- Default container image for linux/amd64 (source line 15). -/
def linuxImageAmd64 : String := "ghcr.io/herugen/fyne-cross-images-linux:latest"

/-- Default container image for linux/386 (source line 16). -/
def linuxImage386 : String := "ghcr.io/herugen/fyne-cross-images-linux:latest"

/-- Default container image for linux/arm64 (source line 17). -/
def linuxImageArm64 : String := "ghcr.io/herugen/fyne-cross-images-linux:latest"

/-- Default container image for linux/arm (source line 18). -/
def linuxImageArm : String := "ghcr.io/herugen/fyne-cross-images-linux:latest"

/-- `linuxArchSupported` defines the supported target architectures on
linux (source line 23). -/
def linuxArchSupported : List Architecture :=
  [.amd64, .i386, .arm, .arm64]

/-- The structured content of the unsupported-architecture error: it
names the offending token and the supported set. -/
structure UnsupportedArchError where
  token : String
  supported : List Architecture
deriving DecidableEq

/-- Looks the token up in the supported list. -/
def resolveToken (supported : List Architecture) (t : String) : Option Architecture :=
  supported.find? (fun a => archString a == t)

/-- A token is supported when it resolves. -/
def isSupportedToken (supported : List Architecture) (t : String) : Bool :=
  (resolveToken supported t).isSome

/-- Modelled from the spec: `targetArchFromFlag` (not part of the
analysed file) maps the requested token list and the supported set to
the ordered, de-duplicated list of valid `Architecture` values,
preserving request order, and fails with an unsupported-architecture
error naming the offending token and the supported set as soon as a
token does not resolve. -/
def targetArchFromFlag (flag : List String) (supported : List Architecture) :
    Except UnsupportedArchError (List Architecture) :=
  match flag with
  | [] => .ok []
  | t :: ts =>
    match resolveToken supported t with
    | none => .error ⟨t, supported⟩
    | some a =>
      match targetArchFromFlag ts supported with
      | .error e => .error e
      | .ok rest => .ok (a :: rest.filter (fun b => b != a))

/-- Specification-side description of order-preserving de-duplication:
keep the first occurrence of every element. -/
def dedupKeepFirst : List Architecture → List Architecture
  | [] => []
  | a :: as => a :: (dedupKeepFirst as).filter (fun b => b != a)

/-- A container image descriptor: architecture, OS, image reference and
the environment assignments in the order the `SetEnv` calls applied
them. -/
structure ContainerImage where
  arch : Architecture
  os : String
  imageRef : String
  env : List (String × String)
deriving DecidableEq

/-- Modelled from the spec: the container engine factory
`createContainerImage(architecture, os, imageReference)` returns a fresh
descriptor with an empty environment mapping. -/
def createContainerImage (arch : Architecture) (os : String) (imageRef : String) :
    ContainerImage :=
  { arch := arch, os := os, imageRef := imageRef, env := [] }

/-- `SetEnv` records one environment assignment; a later assignment to
the same key overrides an earlier one. -/
def setEnv (img : ContainerImage) (k v : String) : ContainerImage :=
  { img with env := img.env ++ [(k, v)] }

/-- The value an environment key resolves to: the last assignment wins. -/
def envLookup (img : ContainerImage) (k : String) : Option String :=
  img.env.reverse.lookup k

/-- Modelled from the spec: the descriptor identifier `image.ID()` is a
stable string key derived from OS and architecture, unique per
(OS, architecture) pair. -/
def imageID (img : ContainerImage) : String :=
  img.os ++ "-" ++ archString img.arch

/-- Modelled from the spec: `overrideDockerImage` returns the
caller-supplied image reference when one was given, else the catalog
default (the override takes precedence over the default). -/
def overrideDockerImage (override : Option String) (base : String) : String :=
  override.getD base

/-- The per-architecture descriptor construction of
`setupContainerImages` (source lines 159 to 187): the `switch arch`
branches followed by the final `image.SetEnv("GOOS", "linux")`. -/
def setupImage (override : Option String) (arch : Architecture) : ContainerImage :=
  let image :=
    match arch with
    | .amd64 =>
      let image := createContainerImage .amd64 linuxOS (overrideDockerImage override linuxImageAmd64)
      let image := setEnv image "GOARCH" "amd64"
      let image := setEnv image "CC" "zig cc -target x86_64-linux-gnu -isystem /usr/include -L/usr/lib/x86_64-linux-gnu"
      setEnv image "CXX" "zig c++ -target x86_64-linux-gnu -isystem /usr/include -L/usr/lib/x86_64-linux-gnu"
    | .i386 =>
      let image := createContainerImage .i386 linuxOS (overrideDockerImage override linuxImage386)
      let image := setEnv image "GOARCH" "386"
      let image := setEnv image "CC" "zig cc -target x86-linux-gnu -isystem /usr/include -L/usr/lib/i386-linux-gnu"
      setEnv image "CXX" "zig c++ -target x86-linux-gnu -isystem /usr/include -L/usr/lib/i386-linux-gnu"
    | .arm =>
      let image := createContainerImage .arm linuxOS (overrideDockerImage override linuxImageArm)
      let image := setEnv image "GOARCH" "arm"
      let image := setEnv image "GOARM" "7"
      let image := setEnv image "CC" "zig cc -target arm-linux-gnueabihf -isystem /usr/include -L/usr/lib/arm-linux-gnueabihf"
      setEnv image "CXX" "zig c++ -target arm-linux-gnueabihf -isystem /usr/include -L/usr/lib/arm-linux-gnueabihf"
    | .arm64 =>
      let image := createContainerImage .arm64 linuxOS (overrideDockerImage override linuxImageArm64)
      let image := setEnv image "GOARCH" "arm64"
      let image := setEnv image "CC" "zig cc -target aarch64-linux-gnu -isystem /usr/include -L/usr/lib/aarch64-linux-gnu"
      setEnv image "CXX" "zig c++ -target aarch64-linux-gnu -isystem /usr/include -L/usr/lib/aarch64-linux-gnu"
  setEnv image "GOOS" "linux"

/-- Modelled from the spec: the volume object of the Build Context
defines three logical directories, each resolvable to a container path. -/
structure Volume where
  workDirContainer : String
  tmpDirContainer : String
  binDirContainer : String
deriving DecidableEq

/-- The Build Context: application name, release flag and the volume.
The accessors `WorkDirContainer`, `TmpDirContainer`, `BinDirContainer`
used by `Build` read the corresponding volume directory. -/
structure Context where
  Name : String
  Release : Bool
  Volume : Volume
deriving DecidableEq

def Context.WorkDirContainer (ctx : Context) : String := ctx.Volume.workDirContainer

def Context.TmpDirContainer (ctx : Context) : String := ctx.Volume.tmpDirContainer

def Context.BinDirContainer (ctx : Context) : String := ctx.Volume.binDirContainer

/-- Modelled from the spec: `volume.JoinPathContainer` joins path
segments with the container path separator, giving the
`<dir>/<descriptor-id>/<artifact>` layout. -/
def joinPathContainer : List String → String
  | [] => ""
  | [p] => p
  | p :: ps => p ++ "/" ++ joinPathContainer ps

/-- The staging path used by the relocate step (source line 98):
`JoinPathContainer(ctx.TmpDirContainer(), image.ID(), packageName)`. -/
def stagingPath (ctx : Context) (img : ContainerImage) (packageName : String) : String :=
  joinPathContainer [ctx.TmpDirContainer, imageID img, packageName]

/-- The binary-output path used by the extract step (source line 103):
`JoinPathContainer(ctx.BinDirContainer(), image.ID())`. -/
def binOutputPath (ctx : Context) (img : ContainerImage) : String :=
  joinPathContainer [ctx.BinDirContainer, imageID img]

/-- Outcomes of the external collaborators invoked by `Build`.  Each
field is `some msg` when that collaborator fails with error message
`msg`, `none` when it succeeds.  `runMvResult` and `runTarResult` are
the error results of the two `image.Run` calls; the Go code does not
bind them, so the embedded `Build` never reads them. -/
structure BuildOracle where
  prepareIconResult : Option String
  fyneReleaseResult : Option String
  fynePackageResult : Option String
  runMvResult : Option String
  runTarResult : Option String
deriving DecidableEq

/-- One observable step of the per-descriptor pipeline, recorded in the
order the Go code performs it. -/
inductive BuildStep where
  | prepareIcon
  | fyneRelease
  | fynePackage
  | runCmd (workDir : Option String) (args : List String)
deriving DecidableEq

/-- The `Build` method (source lines 73 to 109), transcribed.  Returns
the trace of steps performed and the Go result `(string, error)` as an
`Except`.  The two `image.Run` calls appear in the trace with the exact
argument vectors of the source; their error results (the oracle fields
`runMvResult` and `runTarResult`) are discarded exactly as the source
discards them. -/
def Build (ctx : Context) (image : ContainerImage) (o : BuildOracle) :
    List BuildStep × Except String String :=
  match o.prepareIconResult with
  | some err => ([.prepareIcon], .error err)
  | none =>
    let packageName := ctx.Name ++ ".tar.xz"
    let pkgStep : BuildStep := if ctx.Release then .fyneRelease else .fynePackage
    match (if ctx.Release then o.fyneReleaseResult else o.fynePackageResult) with
    | some err =>
      ([.prepareIcon, pkgStep], .error ("could not package the Fyne app: " ++ err))
    | none =>
      ([.prepareIcon, pkgStep,
        .runCmd none
          ["mv",
           joinPathContainer [ctx.WorkDirContainer, packageName],
           stagingPath ctx image packageName],
        .runCmd (some (binOutputPath ctx image))
          ["tar", "-xf",
           stagingPath ctx image packageName,
           "--strip-components=3", "usr/local/bin"]],
       .ok packageName)

/-- The mutable state of the linux command that `setupContainerImages`
updates: the image list and the default context. -/
structure LinuxCmd where
  Images : List ContainerImage
  defaultContext : Option Context
deriving DecidableEq

/-- The errors `setupContainerImages` can return.  `archResolution e`
stands for the source line 145 wrap
`fmt.Errorf("could not make build context for linux OS: ...", err)`
around the unsupported-architecture error `e`; the other two
constructors carry the collaborator error message verbatim. -/
inductive SetupError where
  | archResolution (e : UnsupportedArchError)
  | contextCreation (msg : String)
  | engineCreation (msg : String)
deriving DecidableEq

/-- `setupContainerImages` (source lines 142 to 192), transcribed.  The
results of the collaborators `makeDefaultContext` and
`newContainerEngine` (not part of the analysed file) are oracle
parameters; the sequencing follows the source: architecture resolution
first, then context creation, then the `cmd.defaultContext` assignment,
then engine creation, then the per-architecture descriptor loop
appending to `cmd.Images`. -/
def setupContainerImages (cmd : LinuxCmd) (flagArch : List String)
    (override : Option String)
    (ctxResult : Except String Context) (engineResult : Except String Unit) :
    LinuxCmd × Except SetupError Unit :=
  match targetArchFromFlag flagArch linuxArchSupported with
  | .error e => (cmd, .error (.archResolution e))
  | .ok targetArch =>
    match ctxResult with
    | .error msg => (cmd, .error (.contextCreation msg))
    | .ok ctx =>
      let cmd := { cmd with defaultContext := some ctx }
      match engineResult with
      | .error msg => (cmd, .error (.engineCreation msg))
      | .ok _ =>
        ({ cmd with Images := cmd.Images ++ targetArch.map (setupImage override) },
         .ok ())

/-- The default value of the `-arch` flag (source line 61):
`targetArchFlag{runtime.GOARCH}`, the host architecture detected at
`Parse` time. -/
def parseDefaultTargetArch (hostGOARCH : String) : List String :=
  [hostGOARCH]

/-! ### Sample data used by closed instances -/

/-- A concrete volume for closed instances. -/
def sampleVolume : Volume :=
  { workDirContainer := "/app", tmpDirContainer := "/app/tmp", binDirContainer := "/app/bin" }

/-- A concrete build context for closed instances. -/
def sampleContext : Context :=
  { Name := "app", Release := false, Volume := sampleVolume }

/-- A concrete descriptor for closed instances. -/
def sampleImage : ContainerImage := setupImage none .amd64

/-- An oracle on which every collaborator succeeds. -/
def sampleOracleOk : BuildOracle :=
  { prepareIconResult := none, fyneReleaseResult := none, fynePackageResult := none,
    runMvResult := none, runTarResult := none }

/-- An oracle on which packaging succeeds but the relocate and extract
container commands both fail. -/
def relocateFailureOracle : BuildOracle :=
  { prepareIconResult := none, fyneReleaseResult := none, fynePackageResult := none,
    runMvResult := some "mv failed", runTarResult := some "tar failed" }

/-! ### Helper lemmas -/

theorem string_eq_of_data_eq {s t : String} (h : s.data = t.data) : s = t := by
  cases s; cases t; exact congrArg String.mk h

theorem string_append_ne_left {x y : String} (c : String) (h : x ≠ y) :
    x ++ c ≠ y ++ c := by
  intro heq
  apply h
  have hd := congrArg String.data heq
  rw [String.data_append, String.data_append] at hd
  exact string_eq_of_data_eq (List.append_cancel_right hd)

theorem string_append_ne_right (a : String) {x y : String} (h : x ≠ y) :
    a ++ x ≠ a ++ y := by
  intro heq
  apply h
  have hd := congrArg String.data heq
  rw [String.data_append, String.data_append] at hd
  exact string_eq_of_data_eq (List.append_cancel_left hd)

theorem archString_injective {a b : Architecture} (h : archString a = archString b) :
    a = b := by
  cases a <;> cases b <;> first
    | rfl
    | exact absurd h (by decide)

theorem imageID_setupImage (override : Option String) (a : Architecture) :
    imageID (setupImage override a) = "linux-" ++ archString a := by
  cases a <;> rfl

theorem imageID_setupImage_ne (override : Option String) {a b : Architecture}
    (h : a ≠ b) : imageID (setupImage override a) ≠ imageID (setupImage override b) := by
  rw [imageID_setupImage, imageID_setupImage]
  exact string_append_ne_right "linux-" (fun he => h (archString_injective he))

theorem targetArchFromFlag_ok_of_supported (flag : List String)
    (supported : List Architecture)
    (h : ∀ t ∈ flag, isSupportedToken supported t = true) :
    targetArchFromFlag flag supported =
      .ok (dedupKeepFirst (flag.filterMap (resolveToken supported))) := by
  induction flag with
  | nil => rfl
  | cons t ts ih =>
    have ht : isSupportedToken supported t = true := h t (List.mem_cons_self t ts)
    unfold isSupportedToken at ht
    cases hr : resolveToken supported t with
    | none => rw [hr] at ht; exact absurd ht (by simp)
    | some a =>
      have hts : ∀ x ∈ ts, isSupportedToken supported x = true :=
        fun x hx => h x (List.mem_cons_of_mem t hx)
      simp [targetArchFromFlag, hr, ih hts, dedupKeepFirst]

theorem targetArchFromFlag_error_of_bad (flag : List String)
    (supported : List Architecture) (t : String) (ht : t ∈ flag)
    (hbad : isSupportedToken supported t = false) :
    ∃ e : UnsupportedArchError,
      targetArchFromFlag flag supported = .error e ∧
      e.token ∈ flag ∧ isSupportedToken supported e.token = false ∧
      e.supported = supported := by
  induction flag with
  | nil => cases ht
  | cons s ts ih =>
    cases hr : resolveToken supported s with
    | none =>
      refine ⟨⟨s, supported⟩, ?_, List.mem_cons_self s ts, ?_, rfl⟩
      · simp [targetArchFromFlag, hr]
      · simp [isSupportedToken, hr]
    | some a =>
      have hts : t ∈ ts := by
        rcases List.mem_cons.mp ht with h1 | h1
        · subst h1
          unfold isSupportedToken at hbad
          rw [hr] at hbad
          exact absurd hbad (by simp)
        · exact h1
      obtain ⟨e, he, hm, hb, hs⟩ := ih hts
      exact ⟨e, by simp [targetArchFromFlag, hr, he], List.mem_cons_of_mem s hm, hb, hs⟩

theorem targetArchFromFlag_ok_nodup (flag : List String)
    (supported : List Architecture) (l : List Architecture)
    (h : targetArchFromFlag flag supported = .ok l) : l.Nodup := by
  induction flag generalizing l with
  | nil =>
    simp only [targetArchFromFlag] at h
    cases h
    exact List.nodup_nil
  | cons t ts ih =>
    simp only [targetArchFromFlag] at h
    cases hr : resolveToken supported t with
    | none => rw [hr] at h; cases h
    | some a =>
      rw [hr] at h
      cases hrec : targetArchFromFlag ts supported with
      | error e => rw [hrec] at h; cases h
      | ok rest =>
        rw [hrec] at h
        cases h
        refine List.Nodup.cons ?_ ((ih rest hrec).filter _)
        intro hmem
        have := List.of_mem_filter hmem
        simp at this

theorem stagingPath_eq (ctx : Context) (img : ContainerImage) (pkg : String) :
    stagingPath ctx img pkg =
      ctx.TmpDirContainer ++ "/" ++ (imageID img ++ "/" ++ pkg) := rfl

theorem binOutputPath_eq (ctx : Context) (img : ContainerImage) :
    binOutputPath ctx img = ctx.BinDirContainer ++ "/" ++ imageID img := rfl

theorem stagingPath_ne (ctx : Context) (pkg : String) {i j : ContainerImage}
    (h : imageID i ≠ imageID j) :
    stagingPath ctx i pkg ≠ stagingPath ctx j pkg := by
  rw [stagingPath_eq, stagingPath_eq]
  exact string_append_ne_right _ (string_append_ne_left _ (string_append_ne_left _ h))

theorem binOutputPath_ne (ctx : Context) {i j : ContainerImage}
    (h : imageID i ≠ imageID j) :
    binOutputPath ctx i ≠ binOutputPath ctx j := by
  rw [binOutputPath_eq, binOutputPath_eq]
  exact string_append_ne_right _ h

theorem setupContainerImages_ok_images (cmd cmd2 : LinuxCmd) (flagArch : List String)
    (override : Option String) (ctxResult : Except String Context)
    (engineResult : Except String Unit)
    (h : setupContainerImages cmd flagArch override ctxResult engineResult =
      (cmd2, .ok ())) :
    ∃ l : List Architecture,
      targetArchFromFlag flagArch linuxArchSupported = .ok l ∧
      cmd2.Images = cmd.Images ++ l.map (setupImage override) := by
  unfold setupContainerImages at h
  cases ht : targetArchFromFlag flagArch linuxArchSupported with
  | error e => rw [ht] at h; simp at h
  | ok l =>
    rw [ht] at h
    cases ctxResult with
    | error msg => simp at h
    | ok ctx =>
      cases engineResult with
      | error msg => simp at h
      | ok u =>
        refine ⟨l, rfl, ?_⟩
        have himg := congrArg (fun p => p.1.Images) h
        simpa using himg.symm

/-! ### Claims -/

/-- C1 counterexample: a descriptor whose packaging step succeeds and
whose relocate and extract container commands both fail.  `Build`
returns the archive name with success, so the relocate and extract
failures do not propagate out of `Build` as an error, contrary to the
claim. -/
theorem c1_counterexample :
    relocateFailureOracle.runMvResult = some "mv failed" ∧
    relocateFailureOracle.runTarResult = some "tar failed" ∧
    (Build sampleContext sampleImage relocateFailureOracle).2 =
      Except.ok "app.tar.xz" :=
  ⟨rfl, rfl, rfl⟩

/-- C1 (amended): for every descriptor whose packaging step succeeds,
the result of `Build` is the same whether the relocate and extract
container commands fail or succeed — their error results are discarded,
so a failure of step 3 or step 4 never propagates out of `Build`. -/
theorem c1_relocate_extract_failures_never_propagate (ctx : Context)
    (image : ContainerImage) (o : BuildOracle) (e1 e2 : Option String)
    (hicon : o.prepareIconResult = none)
    (hpkg : (if ctx.Release then o.fyneReleaseResult else o.fynePackageResult) = none) :
    Build ctx image { o with runMvResult := e1, runTarResult := e2 } =
      Build ctx image { o with runMvResult := none, runTarResult := none } := rfl

/-- C1 witness: the amended statement at a concrete input. -/
theorem c1_witness :
    sampleOracleOk.prepareIconResult = none ∧
    (if sampleContext.Release then sampleOracleOk.fyneReleaseResult
      else sampleOracleOk.fynePackageResult) = none ∧
    Build sampleContext sampleImage
        { sampleOracleOk with runMvResult := some "mv failed", runTarResult := some "tar failed" } =
      Build sampleContext sampleImage
        { sampleOracleOk with runMvResult := none, runTarResult := none } :=
  ⟨rfl, rfl,
    c1_relocate_extract_failures_never_propagate sampleContext sampleImage sampleOracleOk
      (some "mv failed") (some "tar failed") rfl rfl⟩

/-- C2: if the packaging step (fyneRelease in release mode, fynePackage
otherwise) fails with `e`, `Build` returns the error wrapped with the
packaging-failure message, and the trace stops after the packaging step:
neither the relocate nor the extract container command is run. -/
theorem c2_packaging_failure_wrapped_and_aborts (ctx : Context)
    (image : ContainerImage) (o : BuildOracle) (e : String)
    (hicon : o.prepareIconResult = none)
    (hpkg : (if ctx.Release then o.fyneReleaseResult else o.fynePackageResult) = some e) :
    Build ctx image o =
      ([BuildStep.prepareIcon,
        if ctx.Release then BuildStep.fyneRelease else BuildStep.fynePackage],
       Except.error ("could not package the Fyne app: " ++ e)) := by
  unfold Build
  rw [hicon]
  cases hrel : ctx.Release with
  | false =>
    rw [hrel] at hpkg
    simp only [if_neg Bool.false_ne_true] at hpkg
    simp [hpkg]
  | true =>
    rw [hrel] at hpkg
    simp only [if_true] at hpkg
    simp [hpkg]

/-- C2 witness: the theorem at a concrete input with a failing packaging
step. -/
theorem c2_witness :
    ({ sampleOracleOk with fynePackageResult := some "exit 1" } : BuildOracle).prepareIconResult = none ∧
    (if sampleContext.Release
      then ({ sampleOracleOk with fynePackageResult := some "exit 1" } : BuildOracle).fyneReleaseResult
      else ({ sampleOracleOk with fynePackageResult := some "exit 1" } : BuildOracle).fynePackageResult) = some "exit 1" ∧
    Build sampleContext sampleImage { sampleOracleOk with fynePackageResult := some "exit 1" } =
      ([BuildStep.prepareIcon,
        if sampleContext.Release then BuildStep.fyneRelease else BuildStep.fynePackage],
       Except.error ("could not package the Fyne app: " ++ "exit 1")) :=
  ⟨rfl, rfl,
    c2_packaging_failure_wrapped_and_aborts sampleContext sampleImage
      { sampleOracleOk with fynePackageResult := some "exit 1" } "exit 1" rfl rfl⟩

/-- C3: for a request list whose tokens all belong to the linux
supported set, resolution returns exactly the valid architectures in
request order with duplicates removed; for a list containing an
unsupported token, resolution fails with an unsupported-architecture
error whose fields name an offending token of the list and the supported
set. -/
theorem c3_arch_resolution (flag : List String) :
    ((∀ t ∈ flag, isSupportedToken linuxArchSupported t = true) →
      targetArchFromFlag flag linuxArchSupported =
        .ok (dedupKeepFirst (flag.filterMap (resolveToken linuxArchSupported)))) ∧
    (∀ t ∈ flag, isSupportedToken linuxArchSupported t = false →
      ∃ e : UnsupportedArchError,
        targetArchFromFlag flag linuxArchSupported = .error e ∧
        e.token ∈ flag ∧ isSupportedToken linuxArchSupported e.token = false ∧
        e.supported = linuxArchSupported) :=
  ⟨fun h => targetArchFromFlag_ok_of_supported flag linuxArchSupported h,
   fun t ht hbad => targetArchFromFlag_error_of_bad flag linuxArchSupported t ht hbad⟩

/-- C3 witness: both sides of the claim at concrete request lists — a
valid list with a duplicate, and a list containing the unsupported token
"riscv". -/
theorem c3_witness :
    targetArchFromFlag ["amd64", "arm64", "amd64"] linuxArchSupported =
      .ok (dedupKeepFirst
        (["amd64", "arm64", "amd64"].filterMap (resolveToken linuxArchSupported))) ∧
    ∃ e : UnsupportedArchError,
      targetArchFromFlag ["amd64", "riscv"] linuxArchSupported = .error e ∧
      e.token ∈ ["amd64", "riscv"] ∧
      isSupportedToken linuxArchSupported e.token = false ∧
      e.supported = linuxArchSupported :=
  ⟨(c3_arch_resolution ["amd64", "arm64", "amd64"]).1 (by decide),
   (c3_arch_resolution ["amd64", "riscv"]).2 "riscv" (by simp) (by decide)⟩

/-- C4: for every architecture, the descriptor built by
`setupContainerImages` carries exactly one GOOS assignment, its value is
"linux", it is the last assignment applied, and the environment lookup
for GOOS resolves to "linux" (no architecture-specific entry can
override it). -/
theorem c4_goos_entry_unique_and_last (override : Option String) (arch : Architecture) :
    ((setupImage override arch).env.filter (fun kv => kv.1 == "GOOS")) =
      [("GOOS", "linux")] ∧
    (setupImage override arch).env.getLast? = some ("GOOS", "linux") ∧
    envLookup (setupImage override arch) "GOOS" = some "linux" := by
  cases arch <;> exact ⟨rfl, rfl, rfl⟩

/-- C5: for every invocation that starts with an empty image list and
succeeds, the staging paths and the binary-output paths of the created
descriptors are pairwise distinct: each is namespaced by the
descriptor's identifier, so paths of different architectures never
coincide. -/
theorem c5_path_namespace_isolation (cmd cmd2 : LinuxCmd) (flagArch : List String)
    (override : Option String) (ctxResult : Except String Context)
    (engineResult : Except String Unit) (ctx : Context) (pkg : String)
    (hempty : cmd.Images = [])
    (h : setupContainerImages cmd flagArch override ctxResult engineResult =
      (cmd2, .ok ())) :
    cmd2.Images.Pairwise (fun i j =>
      stagingPath ctx i pkg ≠ stagingPath ctx j pkg ∧
      binOutputPath ctx i ≠ binOutputPath ctx j) := by
  obtain ⟨l, ht, himg⟩ :=
    setupContainerImages_ok_images cmd cmd2 flagArch override ctxResult engineResult h
  rw [himg, hempty, List.nil_append]
  refine List.pairwise_map.mpr ?_
  refine (targetArchFromFlag_ok_nodup flagArch linuxArchSupported l ht).imp ?_
  intro a b hab
  have hid := imageID_setupImage_ne override hab
  exact ⟨stagingPath_ne ctx pkg hid, binOutputPath_ne ctx hid⟩

/-- C5 witness: the theorem at a concrete successful invocation for the
architectures amd64 and arm64. -/
theorem c5_witness :
    (setupContainerImages ⟨[], none⟩ ["amd64", "arm64"] none
        (.ok sampleContext) (.ok ())).1.Images.Pairwise (fun i j =>
      stagingPath sampleContext i "app.tar.xz" ≠ stagingPath sampleContext j "app.tar.xz" ∧
      binOutputPath sampleContext i ≠ binOutputPath sampleContext j) :=
  c5_path_namespace_isolation ⟨[], none⟩
    (setupContainerImages ⟨[], none⟩ ["amd64", "arm64"] none (.ok sampleContext) (.ok ())).1
    ["amd64", "arm64"] none (.ok sampleContext) (.ok ()) sampleContext "app.tar.xz" rfl rfl

/-- C6: requesting "amd64,arm64" resolves to [amd64, arm64]; the
successful setup creates exactly two descriptors; both carry GOOS=linux
and the architecture-specific CC and CXX cross-compiler entries; the
amd64 descriptor has GOARCH=amd64 and no GOARM entry, the arm64
descriptor has GOARCH=arm64. -/
theorem c6_scenario_amd64_arm64 :
    targetArchFromFlag ["amd64", "arm64"] linuxArchSupported =
      .ok [.amd64, .arm64] ∧
    (setupContainerImages ⟨[], none⟩ ["amd64", "arm64"] none
        (.ok sampleContext) (.ok ())).1.Images.length = 2 ∧
    (setupContainerImages ⟨[], none⟩ ["amd64", "arm64"] none
        (.ok sampleContext) (.ok ())).1.Images.map
        (fun i => (envLookup i "GOARCH", envLookup i "GOARM", envLookup i "GOOS")) =
      [(some "amd64", none, some "linux"), (some "arm64", none, some "linux")] ∧
    (setupContainerImages ⟨[], none⟩ ["amd64", "arm64"] none
        (.ok sampleContext) (.ok ())).1.Images.map
        (fun i => (envLookup i "CC", envLookup i "CXX")) =
      [(some "zig cc -target x86_64-linux-gnu -isystem /usr/include -L/usr/lib/x86_64-linux-gnu",
        some "zig c++ -target x86_64-linux-gnu -isystem /usr/include -L/usr/lib/x86_64-linux-gnu"),
       (some "zig cc -target aarch64-linux-gnu -isystem /usr/include -L/usr/lib/aarch64-linux-gnu",
        some "zig c++ -target aarch64-linux-gnu -isystem /usr/include -L/usr/lib/aarch64-linux-gnu")] :=
  ⟨rfl, rfl, rfl, rfl⟩

/-- C7: whenever `Build` succeeds, the returned archive name is the
application name followed by the fixed extension ".tar.xz"; it is a
function of the Build Context's name only, so identical inputs yield the
same name. -/
theorem c7_archive_name_deterministic (ctx : Context) (image : ContainerImage)
    (o : BuildOracle) (s : String)
    (h : (Build ctx image o).2 = Except.ok s) :
    s = ctx.Name ++ ".tar.xz" := by
  unfold Build at h
  cases hi : o.prepareIconResult with
  | some err => rw [hi] at h; simp at h
  | none =>
    rw [hi] at h
    cases hp : (if ctx.Release then o.fyneReleaseResult else o.fynePackageResult) with
    | some err => rw [hp] at h; simp at h
    | none => rw [hp] at h; simp at h; exact h.symm

/-- C7 witness: the theorem at a concrete successful build. -/
theorem c7_witness :
    (Build sampleContext sampleImage sampleOracleOk).2 = Except.ok "app.tar.xz" ∧
    "app.tar.xz" = sampleContext.Name ++ ".tar.xz" :=
  ⟨rfl, c7_archive_name_deterministic sampleContext sampleImage sampleOracleOk "app.tar.xz" rfl⟩

/-- C8: when the request list contains an unsupported token,
`setupContainerImages` returns the wrapped unsupported-architecture
error and the command state is returned unchanged — in particular the
image list is unchanged and no descriptor was appended; the result does
not depend on the context-creation or engine-creation outcomes, which
are arbitrary here, so the failure happens before the engine is
constructed. -/
theorem c8_unsupported_arch_aborts_setup (cmd : LinuxCmd) (flagArch : List String)
    (override : Option String) (ctxResult : Except String Context)
    (engineResult : Except String Unit) (t : String) (ht : t ∈ flagArch)
    (hbad : isSupportedToken linuxArchSupported t = false) :
    ∃ e : UnsupportedArchError,
      setupContainerImages cmd flagArch override ctxResult engineResult =
        (cmd, .error (.archResolution e)) ∧
      e.token ∈ flagArch ∧ isSupportedToken linuxArchSupported e.token = false ∧
      e.supported = linuxArchSupported := by
  obtain ⟨e, he, hm, hb, hs⟩ :=
    targetArchFromFlag_error_of_bad flagArch linuxArchSupported t ht hbad
  exact ⟨e, by simp [setupContainerImages, he], hm, hb, hs⟩

/-- C8 witness: the theorem at a concrete invocation requesting the
unsupported token "riscv". -/
theorem c8_witness :
    "riscv" ∈ ["riscv"] ∧
    isSupportedToken linuxArchSupported "riscv" = false ∧
    ∃ e : UnsupportedArchError,
      setupContainerImages ⟨[], none⟩ ["riscv"] none (.ok sampleContext) (.ok ()) =
        (⟨[], none⟩, .error (.archResolution e)) ∧
      e.token ∈ ["riscv"] ∧ isSupportedToken linuxArchSupported e.token = false ∧
      e.supported = linuxArchSupported :=
  ⟨by simp, by decide,
    c8_unsupported_arch_aborts_setup ⟨[], none⟩ ["riscv"] none
      (.ok sampleContext) (.ok ()) "riscv" (by simp) (by decide)⟩

/-- C9: the `-arch` flag defaults to the host architecture detected at
Parse time; for every supported host architecture the defaulted request
list is the singleton host token and resolution yields exactly that
architecture — the default varies with the host, it is not hardcoded. -/
theorem c9_default_arch_is_host (a : Architecture) :
    parseDefaultTargetArch (archString a) = [archString a] ∧
    targetArchFromFlag (parseDefaultTargetArch (archString a)) linuxArchSupported =
      .ok [a] := by
  cases a <;> exact ⟨rfl, rfl⟩

/-- C10: for every descriptor, when prepareIcon and the packaging step
succeed, `Build` returns the archive name with success even though the
relocate (mv) and extract (tar) container commands fail: both `Run`
error results are discarded. -/
theorem c10_run_errors_discarded (ctx : Context) (image : ContainerImage)
    (o : BuildOracle) (e1 e2 : String)
    (hicon : o.prepareIconResult = none)
    (hpkg : (if ctx.Release then o.fyneReleaseResult else o.fynePackageResult) = none)
    (hmv : o.runMvResult = some e1) (htar : o.runTarResult = some e2) :
    (Build ctx image o).2 = Except.ok (ctx.Name ++ ".tar.xz") := by
  unfold Build
  rw [hicon]
  cases hrel : ctx.Release with
  | false =>
    rw [hrel] at hpkg
    simp only [if_neg Bool.false_ne_true] at hpkg
    simp [hpkg]
  | true =>
    rw [hrel] at hpkg
    simp only [if_true] at hpkg
    simp [hpkg]

/-- C10 witness: the theorem at a concrete input on which both container
commands fail. -/
theorem c10_witness :
    relocateFailureOracle.prepareIconResult = none ∧
    (if sampleContext.Release then relocateFailureOracle.fyneReleaseResult
      else relocateFailureOracle.fynePackageResult) = none ∧
    relocateFailureOracle.runMvResult = some "mv failed" ∧
    relocateFailureOracle.runTarResult = some "tar failed" ∧
    (Build sampleContext sampleImage relocateFailureOracle).2 =
      Except.ok (sampleContext.Name ++ ".tar.xz") :=
  ⟨rfl, rfl, rfl, rfl,
    c10_run_errors_discarded sampleContext sampleImage relocateFailureOracle
      "mv failed" "tar failed" rfl rfl rfl rfl⟩

end FyneCross
